import Mathlib

set_option maxRecDepth 4000

namespace CliSpec

/-- Kinds of validation failure produced by the engine (spec section 3). -/
inductive ErrKind where
  | unknownArgument
  | missingRequired
  | typeMismatch
  | outOfRange
  | customRejected
  | duplicateExclusive
  | ambiguousSubcommand
deriving Repr, DecidableEq

/-- Modelled from the spec: the ValidationError record of section 3; the clap engine that raises these values is not part of the repository sources, only the template schemas that configure it are. -/
structure ValidationError where
  kind : ErrKind
  argId : Option String
  raw : Option String
  message : String
deriving Repr, DecidableEq

/-- Modelled from the spec: token classification of one argv fragment (sections 3 and 4.2). -/
inductive Token where
  | longFlag (name : String) (inlineValue : Option String)
  | shortCluster (chars : List Char)
  | positional (text : String)
  | separator
deriving Repr, DecidableEq

/-- Modelled from the spec: built-in value type tags of section 4.3. -/
inductive TypeTag where
  | stringT
  | integerT
  | booleanT
  | pathT
  | choiceT (variants : List String)
deriving Repr, DecidableEq

/-- Modelled from the spec: validators applied after built-in coercion (section 4.3) — an inclusive numeric range, or the explicit opt-in directory-existence check that the templates implement with validate_directory. -/
inductive Validator where
  | range (lo hi : Int)
  | directoryExists
deriving Repr, DecidableEq

/-- Modelled from the spec: a typed value produced by coercion. -/
inductive Value where
  | str (s : String)
  | int (n : Int)
  | bool (b : Bool)
  | path (p : String)
  | choice (s : String)
deriving Repr, DecidableEq

/-- Modelled from the spec: provenance of a bound value (section 3), diagnostic-only metadata. -/
inductive Provenance where
  | commandLine
  | environment
  | default
deriving Repr, DecidableEq

/-- Modelled from the spec: the BoundValue of section 3 — absent, a single typed value, or an ordered sequence for repeatable arity. -/
inductive BoundValue where
  | absent
  | one (v : Value) (prov : Provenance)
  | many (vs : List Value) (prov : Provenance)
deriving Repr, DecidableEq

/-- Modelled from the spec: the resolved ArgumentSpec of section 3, which the repository templates build through clap derive attributes and builder calls. -/
structure ArgumentSpec where
  id : String
  shortName : Option Char := none
  longName : Option String := none
  isPositional : Bool := false
  takesValue : Bool := true
  repeatable : Bool := false
  typeTag : TypeTag := .stringT
  validator : Option Validator := none
  defaultVal : Option String := none
  envName : Option String := none
  required : Bool := false
  isGlobal : Bool := false
deriving Repr, DecidableEq

/-- Modelled from the spec: a Schema is an argument list plus a subcommand tree (section 3). -/
inductive Schema where
  | node (args : List ArgumentSpec) (children : List (String × Schema))

/-- Modelled from the spec: the BoundSet of section 3 — argument identifier to BoundValue, plus the resolved subcommand path. -/
structure BoundSet where
  values : List (String × BoundValue)
  subcommandPath : List String
deriving Repr, DecidableEq

/-- Modelled from the spec: inline value of a long flag, the text after the first equals sign when one is present (section 4.2). -/
def inlineVal : List Char → Option String
  | [] => none
  | _ :: vs => some (String.mk vs)

/-- Modelled from the spec: classification of a single argv fragment (section 4.2); the tokenizer itself lives in clap, outside the repository sources. -/
def classify (s : String) : Token :=
  if s = "--" then .separator
  else
    match s.data with
    | '-' :: '-' :: rest =>
        .longFlag (String.mk (rest.takeWhile (fun c => c != '=')))
          (inlineVal (rest.dropWhile (fun c => c != '=')))
    | '-' :: c :: rest => .shortCluster (c :: rest)
    | _ => .positional s

/-- Modelled from the spec: tokenize argv; once the end-of-options marker is seen, every following token is a verbatim positional (section 4.2). -/
def tokenize : List String → List Token
  | [] => []
  | s :: rest =>
    if classify s = Token.separator then Token.separator :: rest.map Token.positional
    else classify s :: tokenize rest

/-- Decimal digit value of a character, when it is a digit. -/
def digitVal (c : Char) : Option Nat :=
  if '0' ≤ c ∧ c ≤ '9' then some (c.toNat - '0'.toNat) else none

/-- Accumulate base-10 digits left to right; any non-digit character fails the parse. -/
def parseDigitsAux : List Char → Nat → Option Nat
  | [], acc => some acc
  | c :: cs, acc =>
    match digitVal c with
    | some d => parseDigitsAux cs (acc * 10 + d)
    | none => none

/-- Base-10 value of a non-empty digit string. -/
def parseNatDigits : List Char → Option Nat
  | [] => none
  | cs => parseDigitsAux cs 0

/-- Embedding of the unsigned integer parsing from the Rust standard library as the templates use it (u8 and usize FromStr): an optional leading plus sign, then decimal digits only, with overflow against the type width reported as failure. -/
def rustParseUnsigned (bits : Nat) (s : String) : Option Nat :=
  let body := match s.data with
    | '+' :: rest => rest
    | cs => cs
  match parseNatDigits body with
  | some v => if v < 2 ^ bits then some v else none
  | none => none

/-- Embedding of port_in_range from src/skills/clap-patterns/templates/value-parser.rs (repeated verbatim in full-featured-cli.rs): usize parse, then inclusive containment in 1..=65535. -/
def port_in_range (s : String) : Except String Nat :=
  match rustParseUnsigned 64 s with
  | some port =>
    if 1 ≤ port ∧ port ≤ 65535 then .ok port
    else .error "port not in range 1-65535"
  | none => .error ("`" ++ s ++ "` isn\x27t a valid port number")

/-- Embedding of parse_percentage from src/skills/clap-patterns/templates/value-parser.rs: u8 parse first, then the value must be at most 100. -/
def parse_percentage (s : String) : Except String Nat :=
  match rustParseUnsigned 8 s with
  | some v =>
    if v ≤ 100 then .ok v else .error "percentage must be between 0 and 100"
  | none => .error ("`" ++ s ++ "` isn\x27t a valid number")

/-- Embedding of validate_directory from src/skills/clap-patterns/templates/value-parser.rs, with the filesystem existence and directory-kind queries passed in as functions. -/
def validate_directory (fsExists fsIsDir : String → Bool) (s : String) : Except String String :=
  if fsExists s && fsIsDir s then .ok s
  else .error ("directory does not exist: " ++ s)

/-- Modelled from the spec: signed 64-bit integer parsing for the built-in integer tag — locale-independent base 10 with an explicit overflow check against the target width (section 4.3). -/
def parseIntRaw (s : String) : Option Int :=
  match s.data with
  | '-' :: rest =>
    match parseNatDigits rest with
    | some v => if v ≤ 2 ^ 63 then some (-(v : Int)) else none
    | none => none
  | '+' :: rest =>
    match parseNatDigits rest with
    | some v => if v < 2 ^ 63 then some (v : Int) else none
    | none => none
  | cs =>
    match parseNatDigits cs with
    | some v => if v < 2 ^ 63 then some (v : Int) else none
    | none => none

/-- Modelled from the spec: built-in coercion by type tag (section 4.3); it reads no external state at all. -/
def coerceBase (raw : String) : TypeTag → Except ValidationError Value
  | .stringT => .ok (.str raw)
  | .integerT =>
    match parseIntRaw raw with
    | some n => .ok (.int n)
    | none => .error ⟨.typeMismatch, none, some raw, "not a valid integer"⟩
  | .booleanT =>
    if raw = "true" then .ok (.bool true)
    else if raw = "1" then .ok (.bool true)
    else if raw = "false" then .ok (.bool false)
    else if raw = "0" then .ok (.bool false)
    else .error ⟨.typeMismatch, none, some raw, "not a valid boolean"⟩
  | .pathT => .ok (.path raw)
  | .choiceT variants =>
    if raw ∈ variants then .ok (.choice raw)
    else .error ⟨.typeMismatch, none, some raw, "invalid choice"⟩

/-- Modelled from the spec: apply a declared validator after successful built-in coercion (section 4.3); only the explicit opt-in directory check consults the filesystem predicate. -/
def applyValidator (fs : String → Bool) (raw : String) (v : Value) : Validator → Except ValidationError Value
  | .range lo hi =>
    match v with
    | .int n =>
      if lo ≤ n ∧ n ≤ hi then .ok (.int n)
      else .error ⟨.outOfRange, none, some raw, "value out of range"⟩
    | _ => .error ⟨.outOfRange, none, some raw, "range validator applied to a non-integer value"⟩
  | .directoryExists =>
    if fs raw then .ok v
    else .error ⟨.customRejected, none, some raw, "directory does not exist: " ++ raw⟩

/-- Modelled from the spec: coerce one raw string through the built-in tag and then the optional validator (section 4.3). -/
def coerce (fs : String → Bool) (raw : String) (tag : TypeTag) (vd : Option Validator) : Except ValidationError Value :=
  match coerceBase raw tag with
  | .error e => .error e
  | .ok v =>
    match vd with
    | none => .ok v
    | some vld => applyValidator fs raw v vld

/-- Modelled from the spec: look up a visible ArgumentSpec by long name (section 4.4 step 1). -/
def findLong (specs : List ArgumentSpec) (n : String) : Option ArgumentSpec :=
  specs.find? (fun a => a.longName == some n)

/-- Modelled from the spec: look up a visible ArgumentSpec by short name (section 4.4 step 1). -/
def findShort (specs : List ArgumentSpec) (c : Char) : Option ArgumentSpec :=
  specs.find? (fun a => a.shortName == some c)

/-- Modelled from the spec: consume a short cluster left to right (section 4.2). Boolean flags combine; the first value-taking flag swallows the remainder of the cluster as its value, or defers to the next token when the cluster ends at it. Returns the raw bindings in order, and the identifier still waiting for a value from the next token, if any. -/
def consumeCluster (specs : List ArgumentSpec) : List Char → List (String × String) → Except ValidationError (List (String × String) × Option String)
  | [], acc => .ok (acc, none)
  | c :: cs, acc =>
    match findShort specs c with
    | none => .error ⟨.unknownArgument, none, some (String.mk [c]), "unknown short flag"⟩
    | some spec =>
      if spec.takesValue then
        if cs.isEmpty then .ok (acc, some spec.id)
        else .ok (acc ++ [(spec.id, String.mk cs)], none)
      else consumeCluster specs cs (acc ++ [(spec.id, "true")])

/-- Modelled from the spec: the token walk of the Binder and Subcommand Router (sections 4.4 and 4.5). Flags are matched against the visible specs (current level plus inherited globals); positionals fill the pending positional specs in declaration order; a positional that matches a declared subcommand name descends into that child carrying the bindings accumulated so far; one that matches none is ambiguous-subcommand when children exist and unknown-argument otherwise. Returns the specs seen along the path, the ordered raw bindings, and the subcommand path. -/
def walk (visible pos : List ArgumentSpec) (children : List (String × Schema))
    (seen : List ArgumentSpec) (acc : List (String × String)) (path : List String) :
    List Token → Except ValidationError (List ArgumentSpec × List (String × String) × List String)
  | [] => .ok (seen, acc, path)
  | .separator :: rest => walk visible pos children seen acc path rest
  | .longFlag n inl :: rest =>
    match findLong visible n with
    | none => .error ⟨.unknownArgument, none, some n, "unknown argument: --" ++ n⟩
    | some spec =>
      if spec.takesValue then
        match inl with
        | some v => walk visible pos children seen (acc ++ [(spec.id, v)]) path rest
        | none =>
          match rest with
          | .positional t :: rest2 =>
            walk visible pos children seen (acc ++ [(spec.id, t)]) path rest2
          | _ => .error ⟨.typeMismatch, some spec.id, none, "missing value for --" ++ n⟩
      else walk visible pos children seen (acc ++ [(spec.id, "true")]) path rest
  | .shortCluster cs :: rest =>
    match consumeCluster visible cs [] with
    | .error e => .error e
    | .ok (pairs, none) => walk visible pos children seen (acc ++ pairs) path rest
    | .ok (pairs, some waitingId) =>
      match rest with
      | .positional t :: rest2 =>
        walk visible pos children seen (acc ++ pairs ++ [(waitingId, t)]) path rest2
      | _ => .error ⟨.typeMismatch, some waitingId, none, "missing value for short flag"⟩
  | .positional t :: rest =>
    match pos with
    | p :: ps =>
      walk visible (if p.repeatable then p :: ps else ps) children seen
        (acc ++ [(p.id, t)]) path rest
    | [] =>
      match children.find? (fun c => c.1 == t) with
      | some (nm, Schema.node cargs cch) =>
        walk (cargs ++ visible.filter (fun a => a.isGlobal))
          (cargs.filter (fun a => a.isPositional)) cch
          (seen ++ cargs) acc (path ++ [nm]) rest
      | none =>
        if children.isEmpty then
          .error ⟨.unknownArgument, none, some t, "unexpected positional: " ++ t⟩
        else
          .error ⟨.ambiguousSubcommand, none, some t, "unknown subcommand: " ++ t⟩

/-- Modelled from the spec: coerce every raw occurrence of one argument, failing fast on the first error (section 4.4 step 6). -/
def coerceAll (fs : String → Bool) (spec : ArgumentSpec) : List String → Except ValidationError (List Value)
  | [] => .ok []
  | r :: rs =>
    match coerce fs r spec.typeTag spec.validator with
    | .error e => .error e
    | .ok v =>
      match coerceAll fs spec rs with
      | .error e => .error e
      | .ok vs => .ok (v :: vs)

/-- Modelled from the spec: resolve one ArgumentSpec after the token walk (section 4.4 steps 3 to 6): command-line occurrences in first-seen order, else the environment lookup when declared, else the declared default, else absent; a missing required argument is missing-required, and duplicate occurrences of a non-repeatable argument are duplicate-exclusive. -/
def resolveSpec (env : String → Option String) (fs : String → Bool)
    (acc : List (String × String)) (spec : ArgumentSpec) : Except ValidationError BoundValue :=
  let raws := (acc.filter (fun p => p.1 == spec.id)).map (fun p => p.2)
  let src : Option (List String × Provenance) :=
    if raws.isEmpty then
      match spec.envName with
      | some en =>
        match env en with
        | some v => some ([v], .environment)
        | none =>
          match spec.defaultVal with
          | some d => some ([d], .default)
          | none => none
      | none =>
        match spec.defaultVal with
        | some d => some ([d], .default)
        | none => none
    else some (raws, .commandLine)
  match src with
  | none =>
    if spec.required then
      .error ⟨.missingRequired, some spec.id, none, "missing required argument: " ++ spec.id⟩
    else .ok .absent
  | some (vs, prov) =>
    if spec.repeatable = false ∧ 2 ≤ vs.length then
      .error ⟨.duplicateExclusive, some spec.id, none, "argument supplied more than once: " ++ spec.id⟩
    else
      match coerceAll fs spec vs with
      | .error e => .error e
      | .ok [v] => .ok (if spec.repeatable then .many [v] prov else .one v prov)
      | .ok vs2 => .ok (.many vs2 prov)

/-- Modelled from the spec: resolve every spec seen along the subcommand path, in declaration order, failing fast (section 4.4). -/
def resolveAll (env : String → Option String) (fs : String → Bool)
    (acc : List (String × String)) : List ArgumentSpec → Except ValidationError (List (String × BoundValue))
  | [] => .ok []
  | s :: ss =>
    match resolveSpec env fs acc s with
    | .error e => .error e
    | .ok bv =>
      match resolveAll env fs acc ss with
      | .error e => .error e
      | .ok rest2 => .ok ((s.id, bv) :: rest2)

/-- Arguments declared at the root of a schema. -/
def Schema.args : Schema → List ArgumentSpec
  | .node a _ => a

/-- Subcommand children of a schema. -/
def Schema.children : Schema → List (String × Schema)
  | .node _ c => c

/-- Modelled from the spec: the whole parse — tokenizer, binder and subcommand router combined (sections 4.2, 4.4 and 4.5); a pure function of the schema, argv, the environment lookup and the filesystem predicate. -/
def parse (schema : Schema) (argv : List String) (env : String → Option String)
    (fs : String → Bool) : Except ValidationError BoundSet :=
  match walk schema.args (schema.args.filter (fun a => a.isPositional)) schema.children
      schema.args [] [] (tokenize argv) with
  | .error e => .error e
  | .ok (seen, acc, path) =>
    match resolveAll env fs acc seen with
    | .error e => .error e
    | .ok vals => .ok ⟨vals, path⟩

/-- Empty environment: every lookup misses. -/
def envEmpty : String → Option String := fun _ => none

/-- Empty filesystem predicate: no path exists. -/
def fsEmpty : String → Bool := fun _ => false

/-- Environment in which PORT is set to 7000 and nothing else is set. -/
def envPort7000 : String → Option String := fun n => if n = "PORT" then some "7000" else none

/-- Environment in which DEBUG is set to 1 and nothing else is set. -/
def envDebug1 : String → Option String := fun n => if n = "DEBUG" then some "1" else none

/-- ArgumentSpec of Cli::port from src/skills/clap-patterns/templates/env-variables.rs lines 53-55: short and long names, env PORT, default 8080. -/
def portSpec : ArgumentSpec :=
  { id := "port", shortName := some 'p', longName := some "port",
    typeTag := .integerT, defaultVal := some "8080", envName := some "PORT" }

/-- Schema holding just the port argument of env-variables.rs. -/
def portSchema : Schema := .node [portSpec] []

/-- ArgumentSpec of Cli::count from src/plugins/cli-builder/skills/clap-patterns/templates/basic-parser.rs lines 31-33: short c, long count, integer, default 10. -/
def countSpec : ArgumentSpec :=
  { id := "count", shortName := some 'c', longName := some "count",
    typeTag := .integerT, defaultVal := some "10" }

/-- ArgumentSpec of Cli::verbose from basic-parser.rs lines 27-29: boolean flag with short v. -/
def verboseSpec : ArgumentSpec :=
  { id := "verbose", shortName := some 'v', longName := some "verbose",
    takesValue := false, typeTag := .booleanT }

/-- ArgumentSpec of Cli::dry_run from basic-parser.rs lines 35-37: boolean flag with short n. -/
def dryRunSpec : ArgumentSpec :=
  { id := "dry_run", shortName := some 'n', longName := some "dry-run",
    takesValue := false, typeTag := .booleanT }

/-- Schema with the count, verbose and dry_run arguments of basic-parser.rs. -/
def basicSchema : Schema := .node [countSpec, verboseSpec, dryRunSpec] []

/-- A plain string positional argument, as in Commands::Add::files of src/skills/clap-patterns/templates/subcommands.rs lines 40-43. -/
def fileSpec : ArgumentSpec := { id := "file", isPositional := true }

/-- Schema with the verbose flag of subcommands.rs lines 17-19 and one positional. -/
def sepSchema : Schema := .node [verboseSpec, fileSpec] []

/-- ArgumentSpec of Cli::verbose from src/skills/clap-patterns/templates/full-featured-cli.rs lines 25-27: a global boolean flag with short v. -/
def globalVerboseSpec : ArgumentSpec :=
  { id := "verbose", shortName := some 'v', longName := some "verbose",
    takesValue := false, typeTag := .booleanT, isGlobal := true }

/-- ArgumentSpec of Commands::Build::clean from full-featured-cli.rs lines 68-70: boolean flag, long only. -/
def cleanSpec : ArgumentSpec :=
  { id := "clean", longName := some "clean", takesValue := false, typeTag := .booleanT }

/-- Schema with the global verbose flag and a build subcommand owning the clean flag, after full-featured-cli.rs. -/
def buildSchema : Schema := .node [globalVerboseSpec] [("build", .node [cleanSpec] [])]

/-- A required argument with a declared environment variable and no default, as Cli::api_key in env-variables.rs lines 20-25 and the required input argument of builder-pattern.rs lines 19-27. -/
def requiredSpec (idStr ln en : String) : ArgumentSpec :=
  { id := idStr, longName := some ln, required := true, envName := some en }

/-- ArgumentSpec of the tags argument from src/skills/clap-patterns/templates/builder-pattern.rs lines 61-68: short t, long tag, append action, so repeatable. -/
def tagSpec : ArgumentSpec :=
  { id := "tags", shortName := some 't', longName := some "tag", repeatable := true }

/-- Schema holding just the repeatable tag argument of builder-pattern.rs. -/
def tagsSchema : Schema := .node [tagSpec] []

/-- ArgumentSpec of Cli::debug from env-variables.rs lines 43-47: boolean flag with env DEBUG. -/
def debugSpec : ArgumentSpec :=
  { id := "debug", longName := some "debug", takesValue := false,
    typeTag := .booleanT, envName := some "DEBUG" }

/-- Schema holding just the debug argument of env-variables.rs. -/
def debugSchema : Schema := .node [debugSpec] []

/-- ArgumentSpec of Commands::Build::jobs from full-featured-cli.rs lines 60-62: short j, long jobs, range 1..=32, default 4. -/
def jobsSpec : ArgumentSpec :=
  { id := "jobs", shortName := some 'j', longName := some "jobs",
    typeTag := .integerT, validator := some (.range 1 32), defaultVal := some "4" }

/-- ArgumentSpec of Cli::retries from value-parser.rs lines 84-91: range 1..=10, default 3. -/
def retriesSpec : ArgumentSpec :=
  { id := "retries", shortName := some 'r', longName := some "retries",
    typeTag := .integerT, validator := some (.range 1 10), defaultVal := some "3" }

/-- Declared default of Cli::threshold in value-parser.rs line 77. -/
def thresholdDefault : String := "80"

/-- Declared default of DeployConfig::Server::port in full-featured-cli.rs line 131. -/
def serverPortDefault : String := "8080"

/-- Modelled from the spec: the fixed literal set the boolean type tag accepts (section 4.3). -/
def boolLits : List String := ["true", "false", "1", "0"]

theorem classify_sep_iff (s : String) : classify s = Token.separator ↔ s = "--" := by
  constructor
  · intro h
    by_contra hne
    unfold classify at h
    rw [if_neg hne] at h
    split at h <;> simp_all
  · intro h
    subst h
    rfl

theorem tokenize_cons_of_ne {s : String} (rest : List String)
    (h : classify s ≠ Token.separator) :
    tokenize (s :: rest) = classify s :: tokenize rest := by
  simp only [tokenize, if_neg h]

/-- C1: for the port argument of env-variables.rs, which has a command-line name, env PORT and default 8080, binding resolves command line over environment over default: with --port 9090 on argv the value is 9090 regardless of the environment; with no --port and PORT=7000 it is 7000; with neither it is 8080. -/
theorem precedence_cli_env_default :
    (∀ env : String → Option String,
      parse portSchema ["--port", "9090"] env fsEmpty
        = .ok ⟨[("port", .one (.int 9090) .commandLine)], []⟩)
  ∧ parse portSchema [] envPort7000 fsEmpty
      = .ok ⟨[("port", .one (.int 7000) .environment)], []⟩
  ∧ parse portSchema [] envEmpty fsEmpty
      = .ok ⟨[("port", .one (.int 8080) .default)], []⟩ :=
  ⟨fun _ => rfl, rfl, rfl⟩

theorem precedence_cli_env_default_witness :
    parse portSchema ["--port", "9090"] envPort7000 fsEmpty
      = .ok ⟨[("port", .one (.int 9090) .commandLine)], []⟩ :=
  precedence_cli_env_default.1 envPort7000

/-- C4: with the global verbose flag and the build subcommand owning clean, argv -v build --clean resolves subcommand path [build] and a single BoundSet holding both verbose = true and clean = true: a global flag given before the subcommand name stays visible after recursion into the child schema. -/
theorem subcommand_global_propagation :
    parse buildSchema ["-v", "build", "--clean"] envEmpty fsEmpty
      = .ok ⟨[("verbose", .one (.bool true) .commandLine),
              ("clean", .one (.bool true) .commandLine)], ["build"]⟩ := rfl

/-- C5: a required argument bound by no command-line token, whose declared environment variable is unset and which has no default, makes parsing return the missing-required error naming that argument, and no BoundSet is returned alongside it. -/
theorem missing_required_no_partial :
    (∀ (idStr ln en : String) (fs : String → Bool),
      parse (.node [requiredSpec idStr ln en] []) [] envEmpty fs
        = .error ⟨.missingRequired, some idStr, none, "missing required argument: " ++ idStr⟩)
  ∧ (∀ (idStr ln en : String) (fs : String → Bool) (b : BoundSet),
      parse (.node [requiredSpec idStr ln en] []) [] envEmpty fs ≠ .ok b) := by
  have hmain : ∀ (idStr ln en : String) (fs : String → Bool),
      parse (.node [requiredSpec idStr ln en] []) [] envEmpty fs
        = .error ⟨.missingRequired, some idStr, none, "missing required argument: " ++ idStr⟩ :=
    fun _ _ _ _ => rfl
  refine ⟨hmain, ?_⟩
  intro idStr ln en fs b h
  rw [hmain idStr ln en fs] at h
  exact Except.noConfusion h

theorem missing_required_no_partial_witness :
    parse (.node [requiredSpec "api_key" "api-key" "API_KEY"] []) [] envEmpty fsEmpty
      = .error ⟨.missingRequired, some "api_key", none, "missing required argument: api_key"⟩ :=
  missing_required_no_partial.1 "api_key" "api-key" "API_KEY" fsEmpty

/-- C9: value coercion is a pure function of the raw string, the type tag and the validator — for every tag and every validator other than the explicit opt-in directory-existence check, the result does not depend on the filesystem predicate, and coercion takes no environment lookup at all. -/
theorem coercion_fs_independent :
    ∀ (tag : TypeTag) (vd : Option Validator) (raw : String) (fs1 fs2 : String → Bool),
      vd ≠ some .directoryExists →
      coerce fs1 raw tag vd = coerce fs2 raw tag vd := by
  intro tag vd raw fs1 fs2 hvd
  unfold coerce
  cases hb : coerceBase raw tag with
  | error e => rfl
  | ok v =>
    cases vd with
    | none => rfl
    | some vld =>
      cases vld with
      | range lo hi => cases v <;> rfl
      | directoryExists => exact absurd rfl hvd

theorem coercion_fs_independent_witness :
    coerce (fun _ => false) "5" .integerT (some (.range 1 32))
      = coerce (fun _ => true) "5" .integerT (some (.range 1 32)) :=
  coercion_fs_independent .integerT (some (.range 1 32)) "5"
    (fun _ => false) (fun _ => true) (by decide)

/-- C10: every declared default satisfies its own validator or range: the threshold default 80 is accepted by parse_percentage, the retries default 3 lies in the declared range 1..=10 so a parse with retries absent from command line and environment succeeds coercing it, and the Server port default 8080 is accepted by port_in_range. -/
theorem defaults_satisfy_validators :
    parse_percentage thresholdDefault = .ok 80
  ∧ retriesSpec.defaultVal = some "3"
  ∧ coerce fsEmpty "3" retriesSpec.typeTag retriesSpec.validator = .ok (.int 3)
  ∧ parse (.node [retriesSpec] []) [] envEmpty fsEmpty
      = .ok ⟨[("retries", .one (.int 3) .default)], []⟩
  ∧ port_in_range serverPortDefault = .ok 8080 :=
  ⟨rfl, rfl, rfl, rfl, rfl⟩

/-- C2: short-cluster parsing is value-greedy — argv -c10 binds the integer count to 10 exactly as -c 10 does; argv -vn binds both boolean flags exactly as -v -n does; and once a value-taking short flag is met inside a cluster, the non-empty remainder of the cluster is consumed as its value and no further characters of the cluster are interpreted as flags. -/
theorem short_cluster_value_greedy :
    (parse basicSchema ["-c10"] envEmpty fsEmpty = parse basicSchema ["-c", "10"] envEmpty fsEmpty)
  ∧ (parse basicSchema ["-c10"] envEmpty fsEmpty
      = .ok ⟨[("count", .one (.int 10) .commandLine), ("verbose", .absent),
              ("dry_run", .absent)], []⟩)
  ∧ (parse basicSchema ["-vn"] envEmpty fsEmpty = parse basicSchema ["-v", "-n"] envEmpty fsEmpty)
  ∧ (parse basicSchema ["-vn"] envEmpty fsEmpty
      = .ok ⟨[("count", .one (.int 10) .default),
              ("verbose", .one (.bool true) .commandLine),
              ("dry_run", .one (.bool true) .commandLine)], []⟩)
  ∧ (∀ (specs : List ArgumentSpec) (spec : ArgumentSpec) (c : Char) (cs : List Char)
        (pairs : List (String × String)),
      findShort specs c = some spec → spec.takesValue = true → cs ≠ [] →
      consumeCluster specs (c :: cs) pairs = .ok (pairs ++ [(spec.id, String.mk cs)], none)) := by
  refine ⟨rfl, rfl, rfl, rfl, ?_⟩
  intro specs spec c cs pairs hf htv hne
  cases cs with
  | nil => exact absurd rfl hne
  | cons a as => simp [consumeCluster, hf, htv]

theorem short_cluster_value_greedy_witness :
    consumeCluster [countSpec] ['c', '1', '0'] [] = .ok ([("count", "10")], none) :=
  short_cluster_value_greedy.2.2.2.2 [countSpec] countSpec 'c' ['1', '0'] [] rfl rfl (by decide)

/-- C3: once the literal end-of-options marker is met, every following token is a verbatim positional regardless of leading dashes and no further flag parsing occurs; in particular argv consisting of the marker then -v binds the positional to the exact string -v and never sets the verbose flag. -/
theorem end_of_options_literalness :
    (∀ argv post : List String, "--" ∉ argv →
      tokenize (argv ++ "--" :: post)
        = tokenize argv ++ Token.separator :: post.map Token.positional)
  ∧ parse sepSchema ["--", "-v"] envEmpty fsEmpty
      = .ok ⟨[("verbose", .absent), ("file", .one (.str "-v") .commandLine)], []⟩ := by
  constructor
  · intro argv post
    induction argv with
    | nil =>
      intro _
      have hc : classify "--" = Token.separator := rfl
      simp [tokenize, hc]
    | cons s argv ih =>
      intro h
      have hs : s ≠ "--" := by intro he; exact h (by simp [he])
      have hns : classify s ≠ Token.separator := fun hc => hs ((classify_sep_iff s).1 hc)
      have h2 : "--" ∉ argv := by intro hm; exact h (by simp [hm])
      calc tokenize ((s :: argv) ++ "--" :: post)
          = classify s :: tokenize (argv ++ "--" :: post) := tokenize_cons_of_ne _ hns
        _ = classify s :: (tokenize argv ++ Token.separator :: post.map Token.positional) := by
              rw [ih h2]
        _ = tokenize (s :: argv) ++ Token.separator :: post.map Token.positional := by
              rw [tokenize_cons_of_ne _ hns, List.cons_append]
  · rfl

theorem end_of_options_literalness_witness :
    tokenize (["-x"] ++ "--" :: ["-v"])
      = tokenize ["-x"] ++ Token.separator :: [Token.positional "-v"] :=
  end_of_options_literalness.1 ["-x"] ["-v"] (by decide)

/-- C6 counterexample: the raw string 300 has integer value exceeding 100 (the usize parse of the same templates reads it as 300), yet parse_percentage rejects it with the invalid-number message from the failed u8 parse, not with the out-of-range rejection. -/
theorem range_enforcement_cex :
    rustParseUnsigned 64 "300" = some 300
  ∧ parse_percentage "300" = .error ("`300` isn\x27t a valid number")
  ∧ parse_percentage "300" ≠ .error "percentage must be between 0 and 100" := by
  refine ⟨rfl, rfl, ?_⟩
  intro h
  have he : parse_percentage "300" = Except.error ("`300` isn\x27t a valid number") := rfl
  rw [he] at h
  injection h with h2
  exact absurd h2 (by decide)

/-- C6 amended: the jobs argument with range 1..=32 rejects the integer raw values 0 and 33 with out-of-range and accepts both endpoints 1 and 32; and every raw string that parses as a u8 (so has integer value at most 255) with value exceeding 100 gets the out-of-range rejection from parse_percentage, while larger integer values fail the u8 parse first. -/
theorem range_enforcement_amended :
    (coerce fsEmpty "0" jobsSpec.typeTag jobsSpec.validator
      = .error ⟨.outOfRange, none, some "0", "value out of range"⟩)
  ∧ (coerce fsEmpty "33" jobsSpec.typeTag jobsSpec.validator
      = .error ⟨.outOfRange, none, some "33", "value out of range"⟩)
  ∧ (coerce fsEmpty "1" jobsSpec.typeTag jobsSpec.validator = .ok (.int 1))
  ∧ (coerce fsEmpty "32" jobsSpec.typeTag jobsSpec.validator = .ok (.int 32))
  ∧ (∀ (s : String) (v : Nat), rustParseUnsigned 8 s = some v → 100 < v →
      parse_percentage s = .error "percentage must be between 0 and 100") := by
  refine ⟨rfl, rfl, rfl, rfl, ?_⟩
  intro s v hp hv
  have hstep : parse_percentage s
      = if v ≤ 100 then .ok v else .error "percentage must be between 0 and 100" := by
    unfold parse_percentage
    rw [hp]
  rw [hstep, if_neg (by omega)]

theorem range_enforcement_amended_witness :
    parse_percentage "150" = .error "percentage must be between 0 and 100" :=
  range_enforcement_amended.2.2.2.2 "150" 150 rfl (by decide)

/-- C7: repeated occurrences of the repeatable tag argument accumulate their values in first-seen command-line order with duplicates retained — for any three plain values, and in particular alpha, beta, alpha, the bound sequence is exactly those values in order, not a deduplicated set. -/
theorem repetition_preserves_order :
    ∀ v1 v2 v3 : String,
      classify v1 = Token.positional v1 → classify v2 = Token.positional v2 →
      classify v3 = Token.positional v3 →
      parse tagsSchema ["--tag", v1, "--tag", v2, "--tag", v3] envEmpty fsEmpty
        = .ok ⟨[("tags", .many [.str v1, .str v2, .str v3] .commandLine)], []⟩ := by
  intro v1 v2 v3 h1 h2 h3
  have hT : classify "--tag" = Token.longFlag "tag" none := rfl
  have ht : tokenize ["--tag", v1, "--tag", v2, "--tag", v3]
      = [Token.longFlag "tag" none, Token.positional v1, Token.longFlag "tag" none,
         Token.positional v2, Token.longFlag "tag" none, Token.positional v3] := by
    simp [tokenize, hT, h1, h2, h3]
  unfold parse
  rw [ht]
  rfl

theorem repetition_preserves_order_witness :
    parse tagsSchema ["--tag", "alpha", "--tag", "beta", "--tag", "alpha"] envEmpty fsEmpty
      = .ok ⟨[("tags", .many [.str "alpha", .str "beta", .str "alpha"] .commandLine)], []⟩ :=
  repetition_preserves_order "alpha" "beta" "alpha" rfl rfl rfl

/-- C8: coercion at the boolean type tag succeeds exactly on the fixed literal set true, false, 1, 0 — mapping true and 1 to true — and rejects every other string with a type-mismatch error; in particular the debug argument of env-variables.rs is enabled by the environment variable DEBUG set to 1. -/
theorem boolean_literal_set :
    (∀ (raw : String) (fs : String → Bool), raw ∈ boolLits →
      coerce fs raw .booleanT none = .ok (.bool (raw == "true" || raw == "1")))
  ∧ (∀ (raw : String) (fs : String → Bool), raw ∉ boolLits →
      coerce fs raw .booleanT none
        = .error ⟨.typeMismatch, none, some raw, "not a valid boolean"⟩)
  ∧ parse debugSchema [] envDebug1 fsEmpty
      = .ok ⟨[("debug", .one (.bool true) .environment)], []⟩ := by
  refine ⟨?_, ?_, rfl⟩
  · intro raw fs h
    simp [boolLits] at h
    rcases h with h | h | h | h <;> subst h <;> rfl
  · intro raw fs h
    simp [boolLits] at h
    obtain ⟨h1, h2, h3, h4⟩ := h
    simp [coerce, coerceBase, h1, h2, h3, h4]

theorem boolean_literal_set_witness :
    coerce fsEmpty "1" .booleanT none = .ok (.bool true) :=
  boolean_literal_set.1 "1" fsEmpty (by decide)

end CliSpec
